import Mathlib

/-!
Verification of the house-affordability / mortgage-risk numeric core.

A shallow embedding, over exact rational arithmetic, of the numeric core of
`src/app.py`: the formula library (`safe_divide`, `pmt`, `invert_pmt`,
`clamp`), the amortization engine (`make_amortization_schedule`), the risk
model (`calculate_risk_score`), the priced-mode computation, the
max-affordability fixed-point price solver, and the session scenario history.

Python floats are modelled as `ℚ`; Python `x ** -n` (for `1 + rate ≠ 0`)
is `((1 + rate) ^ n)⁻¹`; a Python `ZeroDivisionError` raised by `/` is
modelled, where fault behaviour matters, by an `Option`-valued checked
division.
-/

namespace App

/-! ## Definitions: the formula library -/

/-- Embeds `clamp` (src/app.py line 25): `max(min_val, min(value, max_val))`. -/
def clamp (value min_val max_val : ℚ) : ℚ :=
  max min_val (min value max_val)

/-- Embeds `safe_divide` (src/app.py line 29):
`numerator / denominator if denominator != 0 else 0`. -/
def safe_divide (numerator denominator : ℚ) : ℚ :=
  if denominator ≠ 0 then numerator / denominator else 0

/-- Embeds `pmt` (src/app.py line 33).  `rate * pv / (1 - (1 + rate) ** -nper)`
with the zero-rate branch `pv / nper`; the float power `(1 + rate) ** -nper`
is rendered as `((1 + rate) ^ nper)⁻¹`. -/
def pmt (rate : ℚ) (nper : ℕ) (pv : ℚ) : ℚ :=
  if rate = 0 then pv / nper
  else rate * pv / (1 - ((1 + rate) ^ nper)⁻¹)

/-- Embeds `invert_pmt` (src/app.py line 39).
`payment * (1 - (1 + rate) ** -nper) / rate` with the zero-rate branch
`payment * nper`. -/
def invert_pmt (payment rate : ℚ) (nper : ℕ) : ℚ :=
  if rate = 0 then payment * nper
  else payment * (1 - ((1 + rate) ^ nper)⁻¹) / rate

/-! ## Definitions: the risk model -/

/-- Embeds the `credit_risks` lookup (src/app.py lines 85-92): a fixed
string-keyed table with default `0.5` for an unrecognized band. -/
def credit_risks (credit_score_band : String) : ℚ :=
  if credit_score_band = "760+" then 0.1
  else if credit_score_band = "720-759" then 0.3
  else if credit_score_band = "680-719" then 0.5
  else if credit_score_band = "640-679" then 0.7
  else if credit_score_band = "Under 640" then 1.0
  else 0.5

/-- Embeds `calculate_risk_score` (src/app.py lines 76-96). -/
def calculate_risk_score (back_end_dti ltv : ℚ) (credit_score_band : String) : ℚ :=
  let dti_risk := min (back_end_dti / 0.5) 1.0
  let ltv_risk := min (ltv / 1.0) 1.0
  let credit_risk := credit_risks credit_score_band
  let risk_score := (dti_risk * 0.5 + ltv_risk * 0.3 + credit_risk * 0.2) * 100
  min 100 (max 0 risk_score)

/-- The risk-score formula exactly as the specification words it:
`clamp(100 × (0.5·dtiRisk + 0.3·ltvRisk + 0.2·creditRisk), 0, 100)` with
`dtiRisk = min(backEndDti / 0.5, 1)` and `ltvRisk = min(ltv, 1)`. -/
def riskScoreSpec (back_end_dti ltv : ℚ) (credit_score_band : String) : ℚ :=
  clamp (100 * (0.5 * min (back_end_dti / 0.5) 1 + 0.3 * min ltv 1 +
    0.2 * credit_risks credit_score_band)) 0 100

/-! ## Definitions: the amortization engine -/

/-- One row of the amortization schedule: the dict appended at
src/app.py lines 62-69 (keys Month, Beginning Balance, Interest, Principal,
Ending Balance, Cumulative Interest). -/
structure AmortizationRow where
  month : ℕ
  beginning_balance : ℚ
  interest : ℚ
  principal : ℚ
  ending_balance : ℚ
  cumulative_interest : ℚ
  deriving DecidableEq, Repr

/-- The month-by-month loop of `make_amortization_schedule`
(src/app.py lines 56-72).  The fuel counts the months remaining in
`range(1, total_months + 1)`; the recorded beginning balance is
`balance + principal` computed after the clamped balance update, exactly as
the source appends it, and the loop breaks once the balance reaches zero. -/
def amortRows (monthly_rate monthly_payment : ℚ) :
    ℕ → ℕ → ℚ → ℚ → List AmortizationRow
  | 0, _, _, _ => []
  | fuel + 1, month, balance, cumulative_interest =>
    let interest := balance * monthly_rate
    let principal := monthly_payment - interest
    let balance2 := max 0 (balance - principal)
    let cumulative2 := cumulative_interest + interest
    let row : AmortizationRow :=
      ⟨month, balance2 + principal, interest, principal, balance2, cumulative2⟩
    if balance2 ≤ 0 then [row]
    else row :: amortRows monthly_rate monthly_payment fuel (month + 1) balance2 cumulative2

/-- Embeds `make_amortization_schedule` (src/app.py lines 45-74). -/
def make_amortization_schedule (loan_amount annual_rate : ℚ) (years : ℕ) :
    List AmortizationRow :=
  let monthly_rate := annual_rate / 100 / 12
  let total_months := years * 12
  let monthly_payment := pmt monthly_rate total_months loan_amount
  amortRows monthly_rate monthly_payment total_months 1 loan_amount 0

/-! ## Definitions: inputs, priced mode and the ratio computations -/

/-- The sidebar inputs the affordability computation reads
(src/app.py lines 132-267).  `max_front_dti` and `max_back_dti` hold the
widget values already divided by 100 (lines 253-267), e.g. `0.28`;
`down_payment_percent` is the separate percent widget (lines 180-186), which
the source does not force to agree with `down_payment_amount / home_price`. -/
structure LoanInputs where
  annual_income : ℚ
  existing_debt : ℚ
  home_price : ℚ
  down_payment_amount : ℚ
  down_payment_percent : ℚ
  interest_rate : ℚ
  loan_term : ℕ
  property_tax_rate : ℚ
  home_insurance : ℚ
  hoa_fees : ℚ
  pmi_rate : ℚ
  max_front_dti : ℚ
  max_back_dti : ℚ
  credit_band : String
  deriving DecidableEq, Repr

/-- The error raised when validation aborts the computation (§7 of the
specification: `InvalidInput`). -/
inductive CalcError where
  | InvalidInput
  deriving DecidableEq, Repr

/-- The result bundle priced mode computes (src/app.py lines 312-345). -/
structure AffordabilityResult where
  loan_amount : ℚ
  monthly_pi : ℚ
  monthly_tax : ℚ
  monthly_insurance : ℚ
  monthly_hoa : ℚ
  monthly_pmi : ℚ
  total_monthly_payment : ℚ
  front_end_dti : ℚ
  back_end_dti : ℚ
  ltv : ℚ
  deriving DecidableEq, Repr

/-- The priced-mode PMI charge (src/app.py lines 331-334): gated on the
separately supplied `down_payment_percent` widget value, not on the ratio
`down_payment_amount / home_price`. -/
def pricedMonthlyPmi (I : LoanInputs) : ℚ :=
  if I.down_payment_percent < 20 then
    (I.home_price - I.down_payment_amount) * I.pmi_rate / 100 / 12
  else 0

/-- Embeds priced mode (src/app.py lines 312-345): the down-payment
validation (`st.error` + `st.stop`, lines 317-319) aborts the computation
before any result is produced. -/
def pricedCompute (I : LoanInputs) : Except CalcError AffordabilityResult :=
  let loan_amount := I.home_price - I.down_payment_amount
  if I.down_payment_amount ≥ I.home_price then .error .InvalidInput
  else
    let monthly_rate := I.interest_rate / 100 / 12
    let total_months := I.loan_term * 12
    let monthly_pi := pmt monthly_rate total_months loan_amount
    let monthly_tax := I.home_price * I.property_tax_rate / 100 / 12
    let monthly_insurance := I.home_insurance / 12
    let monthly_hoa := I.hoa_fees
    let monthly_pmi := pricedMonthlyPmi I
    let total_monthly_payment := monthly_pi + monthly_tax + monthly_insurance +
      monthly_hoa + monthly_pmi
    let monthly_income := I.annual_income / 12
    .ok ⟨loan_amount, monthly_pi, monthly_tax, monthly_insurance, monthly_hoa,
      monthly_pmi, total_monthly_payment,
      total_monthly_payment / monthly_income,
      (total_monthly_payment + I.existing_debt) / monthly_income,
      loan_amount / I.home_price⟩

/-- Checked division: Python `/` raises `ZeroDivisionError` on a zero
denominator (for floats too), modelled as `none`. -/
def divOrFault (numerator denominator : ℚ) : Option ℚ :=
  if denominator = 0 then none else some (numerator / denominator)

/-- The DTI and LTV ratio computations of priced mode exactly as written
(src/app.py lines 309 and 338-343), with Python's division faults explicit:
the source divides directly, it does not call `safe_divide`. -/
def pricedRatios (I : LoanInputs) (total_monthly_payment loan_amount : ℚ) :
    Option (ℚ × ℚ × ℚ) := do
  let monthly_income := I.annual_income / 12
  let front_end_dti ← divOrFault total_monthly_payment monthly_income
  let back_end_dti ← divOrFault (total_monthly_payment + I.existing_debt) monthly_income
  let ltv ← divOrFault loan_amount I.home_price
  return (front_end_dti, back_end_dti, ltv)

/-! ## Definitions: the max-affordability solver -/

/-- The DTI payment target (src/app.py lines 350-352):
`min(monthly_income * max_front_dti, monthly_income * max_back_dti - existing_debt)`. -/
def targetPayment (I : LoanInputs) : ℚ :=
  min (I.annual_income / 12 * I.max_front_dti)
    (I.annual_income / 12 * I.max_back_dti - I.existing_debt)

/-- The total monthly payment at a candidate price: the loop body of
src/app.py lines 362-379 and the final recomputation of lines 391-403 both
compute exactly this (same P&I, tax, insurance, HOA, and the PMI gate on the
ratio `down_payment_amount / price < 0.20`). -/
def totalPaymentAt (I : LoanInputs) (price : ℚ) : ℚ :=
  let estimated_loan := price - I.down_payment_amount
  let monthly_rate := I.interest_rate / 100 / 12
  let total_months := I.loan_term * 12
  let monthly_pi := pmt monthly_rate total_months estimated_loan
  let monthly_tax := price * I.property_tax_rate / 100 / 12
  let monthly_insurance := I.home_insurance / 12
  let monthly_hoa := I.hoa_fees
  let monthly_pmi := if I.down_payment_amount / price < 0.20 then
    estimated_loan * I.pmi_rate / 100 / 12 else 0
  monthly_pi + monthly_tax + monthly_insurance + monthly_hoa + monthly_pmi

/-- The iterative price loop (src/app.py lines 360-386), fuel-indexed by the
remaining `range(10)` iterations.  Returns the final price estimate, whether
the loop exited through the $10 tolerance break, and the number of loop-body
iterations executed (the `continue` branch when the loan is non-positive
counts as an iteration, as in the source). -/
def solveLoop (I : LoanInputs) : ℕ → ℚ → ℕ → ℚ × Bool × ℕ
  | 0, estimated_price, count => (estimated_price, false, count)
  | fuel + 1, estimated_price, count =>
    if estimated_price - I.down_payment_amount ≤ 0 then
      solveLoop I fuel (I.down_payment_amount * 2) (count + 1)
    else
      let estimated_total := totalPaymentAt I estimated_price
      if |estimated_total - targetPayment I| < 10 then (estimated_price, true, count + 1)
      else solveLoop I fuel
        (estimated_price * (targetPayment I / estimated_total)) (count + 1)

/-- The home price max-affordability mode returns (src/app.py line 389): the
loop result from the 400000 seed, floored at `down_payment_amount + 1000`. -/
def maxAffordHomePrice (I : LoanInputs) : ℚ :=
  max (solveLoop I 10 400000 0).1 (I.down_payment_amount + 1000)

/-- Inputs on which the solver loop breaks through the $10 tolerance on its
first iteration: a zero-rate 15-year loan whose target payment matches the
payment at the 400000 seed (`home_price` is unused in max-affordability
mode). -/
def convergingInputs : LoanInputs :=
  ⟨71430, 0, 0, 100000, 20, 0, 15, 0, 0, 0, 0, 0.28, 0.36, "760+"⟩

/-- Inputs on which the solver oscillates: a large down payment (300000)
with a small income (21000/yr) makes the rescaling step overshoot, the loan
estimate turns non-positive on alternate iterations, and the loop exhausts
its 10 iterations at the price `2 * down_payment = 600000`, whose payment
far exceeds the target. -/
def divergingInputs : LoanInputs :=
  ⟨21000, 0, 0, 300000, 20, 12, 15, 0, 0, 0, 0, 0.28, 0.36, "760+"⟩

/-! ## Definitions: the scenario history -/

/-- One saved scenario: the dict built by the Save Scenario handler
(src/app.py lines 289-299); the payment, DTI and LTV slots start as `None`
and are filled in by a later computation. -/
structure Scenario where
  timestamp : String
  annual_income : ℚ
  home_price : Option ℚ
  down_payment_amount : ℚ
  interest_rate : ℚ
  loan_term : ℕ
  monthly_payment : Option ℚ
  back_end_dti : Option ℚ
  ltv : Option ℚ
  deriving DecidableEq, Repr

/-- Embeds the Save Scenario handler's list update (src/app.py lines
300-302): append the new snapshot, then pop the oldest entry when more than
2 are stored. -/
def saveScenario (scenarios : List Scenario) (s : Scenario) : List Scenario :=
  let scenarios2 := scenarios ++ [s]
  if 2 < scenarios2.length then scenarios2.drop 1 else scenarios2

/-- Embeds the post-computation update (src/app.py lines 417-422): whenever
a computation runs with a non-empty history, the newest stored snapshot is
mutated in place with the freshly computed payment, DTI and LTV. -/
def updateLastScenario (scenarios : List Scenario) (mp dti l : ℚ) : List Scenario :=
  if hne : scenarios = [] then scenarios
  else scenarios.dropLast ++
    [{ scenarios.getLast hne with
        monthly_payment := some mp, back_end_dti := some dti, ltv := some l }]

/-- A saved scenario before any computation filled its computed slots. -/
def sampleScenario : Scenario :=
  ⟨"12:00:00", 80000, some 400000, 80000, 6.5, 30, none, none, none⟩

/-! ## Theorems: C2, the `pmt` / `invert_pmt` round-trip -/

theorem one_lt_one_add_pow {rate : ℚ} (h1 : 0 < rate) {nper : ℕ} (hn : 1 ≤ nper) :
    1 < (1 + rate) ^ nper := by
  have ha : (1 : ℚ) < 1 + rate := by linarith
  calc (1 : ℚ) < (1 + rate) ^ 1 := by simpa using ha
  _ ≤ (1 + rate) ^ nper := pow_le_pow_right₀ (le_of_lt ha) hn

theorem discount_factor_ne_zero {rate : ℚ} (h1 : 0 < rate) {nper : ℕ} (hn : 1 ≤ nper) :
    1 - ((1 + rate) ^ nper)⁻¹ ≠ 0 := by
  have hp : 1 < (1 + rate) ^ nper := one_lt_one_add_pow h1 hn
  have hinv : ((1 + rate) ^ nper)⁻¹ < 1 := by
    rw [inv_lt_one_iff₀]
    right
    exact hp
  intro hcontra
  nlinarith [hinv]

/-- C2: for every `rate ≥ 0`, `periods ≥ 1` and `principal > 0`,
`invert_pmt (pmt rate periods principal) rate periods = principal` exactly
over exact (rational) arithmetic, including the zero-rate branch where
`pmt` degrades to `principal / periods` and `invert_pmt` to
`payment * periods`. -/
theorem pmt_invert_pmt_roundtrip (rate : ℚ) (nper : ℕ) (pv : ℚ)
    (hr : 0 ≤ rate) (hn : 1 ≤ nper) (_hpv : 0 < pv) :
    invert_pmt (pmt rate nper pv) rate nper = pv := by
  have hnq : (nper : ℚ) ≠ 0 := Nat.cast_ne_zero.mpr (by omega)
  rcases eq_or_lt_of_le hr with h0 | h1
  · simp only [pmt, invert_pmt, ← h0, if_pos rfl]
    field_simp
  · have hne : rate ≠ 0 := ne_of_gt h1
    have hd : 1 - ((1 + rate) ^ nper)⁻¹ ≠ 0 := discount_factor_ne_zero h1 hn
    have hp := one_lt_one_add_pow h1 hn
    have hA0 : ((1 + rate) ^ nper : ℚ) ≠ 0 := by positivity
    have hA1 : ((1 + rate) ^ nper : ℚ) - 1 ≠ 0 := sub_ne_zero.mpr (ne_of_gt hp)
    simp only [pmt, invert_pmt, if_neg hne]
    field_simp

/-- C2 witness: the round-trip at `rate = 1`, `periods = 2`, `principal = 3`. -/
theorem pmt_invert_pmt_roundtrip_witness : invert_pmt (pmt 1 2 3) 1 2 = 3 :=
  pmt_invert_pmt_roundtrip 1 2 3 (by norm_num) (by norm_num) (by norm_num)

/-! ## Theorems: C4, the risk score equals the clamped weighted formula -/

theorem credit_risks_720_759 : credit_risks "720-759" = 0.3 := by rfl

theorem min_100_max_0_eq_clamp (x : ℚ) : min 100 (max 0 x) = clamp x 0 100 := by
  simp only [clamp, min_def, max_def]
  split_ifs <;> linarith

/-- C4: for every back-end DTI ≥ 0, LTV ≥ 0 and credit-band string,
`calculate_risk_score` equals the specification formula
`clamp (100 * (0.5 * dtiRisk + 0.3 * ltvRisk + 0.2 * creditRisk)) 0 100`,
and the result lies in `[0, 100]`. -/
theorem calculate_risk_score_matches_spec (back_end_dti ltv : ℚ)
    (credit_score_band : String) (_hd : 0 ≤ back_end_dti) (_hl : 0 ≤ ltv) :
    calculate_risk_score back_end_dti ltv credit_score_band =
      riskScoreSpec back_end_dti ltv credit_score_band ∧
    0 ≤ calculate_risk_score back_end_dti ltv credit_score_band ∧
    calculate_risk_score back_end_dti ltv credit_score_band ≤ 100 := by
  refine ⟨?_, ?_, ?_⟩
  · simp only [calculate_risk_score, riskScoreSpec, div_one]
    rw [min_100_max_0_eq_clamp]
    congr 1
    ring_nf
  · simp only [calculate_risk_score]
    exact le_min (by norm_num) (le_max_left 0 _)
  · simp only [calculate_risk_score]
    exact min_le_left 100 _

/-- C4 witness: the spec formula agreement and range at the smoke-test input. -/
theorem calculate_risk_score_matches_spec_witness :
    calculate_risk_score 0.36 0.8 "720-759" = riskScoreSpec 0.36 0.8 "720-759" ∧
    0 ≤ calculate_risk_score 0.36 0.8 "720-759" ∧
    calculate_risk_score 0.36 0.8 "720-759" ≤ 100 :=
  calculate_risk_score_matches_spec 0.36 0.8 "720-759" (by norm_num) (by norm_num)

/-! ## Theorems: C5, monotonicity of the risk score -/

/-- C5: `calculate_risk_score` is monotonically non-decreasing in the back-end
DTI when the LTV and credit band are fixed, and in the LTV when the back-end
DTI and credit band are fixed. -/
theorem calculate_risk_score_monotone (d1 d2 l1 l2 : ℚ) (credit_score_band : String)
    (hd : d1 ≤ d2) (hl : l1 ≤ l2) :
    calculate_risk_score d1 l1 credit_score_band ≤
      calculate_risk_score d2 l1 credit_score_band ∧
    calculate_risk_score d1 l1 credit_score_band ≤
      calculate_risk_score d1 l2 credit_score_band := by
  constructor <;>
  · simp only [calculate_risk_score]
    gcongr

/-- C5 witness: monotonicity instantiated at DTI 0 ≤ 1 and LTV 0 ≤ 1. -/
theorem calculate_risk_score_monotone_witness :
    calculate_risk_score 0 0 "760+" ≤ calculate_risk_score 1 0 "760+" ∧
    calculate_risk_score 0 0 "760+" ≤ calculate_risk_score 0 1 "760+" :=
  calculate_risk_score_monotone 0 1 0 1 "760+" (by norm_num) (by norm_num)

/-! ## Theorems: C6, the source's own risk-score smoke test fails -/

/-- C6: the source's smoke test (src/app.py lines 748-753) expects
`calculate_risk_score 0.36 0.8 "720-759"` to lie in `[30, 60]`, but the
function returns `66` (dtiRisk `0.72`, ltvRisk `0.8`, creditRisk `0.3` give
`(0.36 + 0.24 + 0.06) * 100`): the code contradicts its own test. -/
theorem risk_smoke_test_violated :
    calculate_risk_score 0.36 0.8 "720-759" = 66 ∧
    ¬ calculate_risk_score 0.36 0.8 "720-759" ≤ 60 := by
  constructor <;>
    norm_num [calculate_risk_score, credit_risks_720_759, min_def, max_def]

/-! ## Theorems: C3, the amortization row invariants -/

/-- Every emitted row satisfies
`ending_balance = max 0 (beginning_balance - principal)`, with no hypotheses:
the source records the beginning balance as `balance + principal` after the
clamped update, which forces the identity. -/
theorem amortRows_ending_balance (mr mp : ℚ) :
    ∀ (fuel month : ℕ) (balance cum : ℚ),
      ∀ row ∈ amortRows mr mp fuel month balance cum,
        row.ending_balance = max 0 (row.beginning_balance - row.principal) := by
  intro fuel
  induction fuel with
  | zero =>
    intro month balance cum row hrow
    simp [amortRows] at hrow
  | succ f ih =>
    intro month balance cum row hrow
    simp only [amortRows] at hrow
    have hnn : (0 : ℚ) ≤ max 0 (balance - (mp - balance * mr)) := le_max_left 0 _
    split_ifs at hrow with hz
    · simp only [List.mem_singleton] at hrow
      subst hrow
      simp only [add_sub_cancel_right]
      exact (max_eq_right hnn).symm
    · rcases List.mem_cons.mp hrow with hhead | htail
      · subst hhead
        simp only [add_sub_cancel_right]
        exact (max_eq_right hnn).symm
      · exact ih (month + 1) _ _ row htail

/-- Every emitted row satisfies `interest = beginning_balance * monthly_rate`,
as long as the remaining balance can absorb the level payment: the invariant
hypothesis says the remaining payments, discounted, are covered by the
balance.  Over exact arithmetic this makes the clamp inactive, so the
recorded beginning balance equals the pre-update balance. -/
theorem amortRows_interest (mr mp : ℚ) (hmr : 0 ≤ mr) (hmp : 0 ≤ mp) :
    ∀ (fuel month : ℕ) (balance cum : ℚ),
      (mr = 0 → mp * fuel ≤ balance) →
      (0 < mr → mp * (1 - ((1 + mr) ^ fuel)⁻¹) ≤ balance * mr) →
      ∀ row ∈ amortRows mr mp fuel month balance cum,
        row.interest = row.beginning_balance * mr := by
  intro fuel
  induction fuel with
  | zero =>
    intro month balance cum _ _ row hrow
    simp [amortRows] at hrow
  | succ f ih =>
    intro month balance cum hz hp row hrow
    have ha0 : (0 : ℚ) < 1 + mr := by linarith
    -- the no-clamp fact, by rate case
    have hkey : mp ≤ balance * (1 + mr) := by
      rcases eq_or_lt_of_le hmr with h0 | h0
      · have h := hz h0.symm
        push_cast at h
        have : (0 : ℚ) ≤ mp * f := mul_nonneg hmp (by positivity)
        rw [← h0]
        nlinarith
      · have h := hp h0
        have hv0 : (0 : ℚ) < (1 + mr) ^ f := by positivity
        have hv1 : ((1 + mr : ℚ) ^ f)⁻¹ ≤ 1 := by
          rw [inv_le_one_iff₀]
          right
          exact one_le_pow₀ (by linarith)
        have hrel : ((1 + mr : ℚ) ^ (f + 1))⁻¹ * (1 + mr) = ((1 + mr) ^ f)⁻¹ := by
          rw [pow_succ]
          field_simp
          ring
        have h' := mul_le_mul_of_nonneg_right h (le_of_lt ha0)
        have hmv : mp * (((1 + mr : ℚ) ^ (f + 1))⁻¹ * (1 + mr)) =
            mp * ((1 + mr) ^ f)⁻¹ := by rw [hrel]
        have hclear : mp * (1 - ((1 + mr) ^ f)⁻¹) ≤ (balance * (1 + mr) - mp) * mr := by
          nlinarith [h', hmv]
        have h1v : (0 : ℚ) ≤ mp * (1 - ((1 + mr) ^ f)⁻¹) :=
          mul_nonneg hmp (by linarith)
        have := (mul_nonneg_iff_of_pos_right h0).mp (le_trans h1v hclear)
        linarith
    have hb2 : max 0 (balance - (mp - balance * mr)) = balance - (mp - balance * mr) :=
      max_eq_right (by nlinarith)
    simp only [amortRows] at hrow
    rw [hb2] at hrow
    split_ifs at hrow with hzero
    · simp only [List.mem_singleton] at hrow
      subst hrow
      simp only [sub_sub_cancel]
      ring
    · rcases List.mem_cons.mp hrow with hhead | htail
      · subst hhead
        simp only [sub_sub_cancel]
        ring
      · refine ih (month + 1) (balance - (mp - balance * mr)) _ ?_ ?_ row htail
        · intro h0
          subst h0
          have h := hz rfl
          push_cast at h ⊢
          linarith
        · intro h0
          have h := hp h0
          have hrel : ((1 + mr : ℚ) ^ (f + 1))⁻¹ * (1 + mr) = ((1 + mr) ^ f)⁻¹ := by
            rw [pow_succ]
            field_simp
            ring
          have h' := mul_le_mul_of_nonneg_right h (le_of_lt ha0)
          have hmv : mp * (((1 + mr : ℚ) ^ (f + 1))⁻¹ * (1 + mr)) =
              mp * ((1 + mr) ^ f)⁻¹ := by rw [hrel]
          nlinarith [h', hmv]

/-- The first row of a nonempty run of the amortization loop carries
cumulative interest `cum + balance * monthly_rate`. -/
theorem amortRows_head_cum (mr mp : ℚ) (fuel month : ℕ) (balance cum : ℚ)
    (row : AmortizationRow)
    (h : (amortRows mr mp (fuel + 1) month balance cum).head? = some row) :
    row.cumulative_interest = cum + balance * mr := by
  simp only [amortRows] at h
  split_ifs at h <;>
  · simp only [List.head?_cons, Option.some.injEq] at h
    subst h
    rfl

/-- The cumulative-interest column is non-decreasing along the emitted rows
whenever the rate is non-negative (the loop keeps the balance non-negative
by clamping). -/
theorem amortRows_chain (mr mp : ℚ) (hmr : 0 ≤ mr) :
    ∀ (fuel month : ℕ) (balance cum : ℚ),
      List.Chain' (fun x y => x.cumulative_interest ≤ y.cumulative_interest)
        (amortRows mr mp fuel month balance cum) := by
  intro fuel
  induction fuel with
  | zero =>
    intro month balance cum
    simp [amortRows]
  | succ f ih =>
    intro month balance cum
    simp only [amortRows]
    split_ifs with hz
    · simp
    · rw [List.chain'_cons']
      refine ⟨?_, ih (month + 1) _ _⟩
      intro y hy
      cases f with
      | zero => simp [amortRows] at hy
      | succ f2 =>
        have hcum := amortRows_head_cum mr mp f2 (month + 1)
          (max 0 (balance - (mp - balance * mr)))
          (cum + balance * mr) y (by simpa using hy)
        have hnn : (0 : ℚ) ≤ max 0 (balance - (mp - balance * mr)) := le_max_left 0 _
        have : (0 : ℚ) ≤ max 0 (balance - (mp - balance * mr)) * mr :=
          mul_nonneg hnn hmr
        simp only [hcum]
        linarith

/-- C3: for every loan amount > 0, annual rate ≥ 0 and term ≥ 1 year, every
row of the amortization schedule satisfies
`ending_balance = max 0 (beginning_balance - principal)` and
`interest = beginning_balance * monthly_rate` (with
`monthly_rate = annual_rate / 100 / 12`), and the cumulative-interest column
is monotonically non-decreasing across the row sequence. -/
theorem make_amortization_schedule_invariants (loan_amount annual_rate : ℚ)
    (years : ℕ) (hl : 0 < loan_amount) (hr : 0 ≤ annual_rate) (hy : 1 ≤ years) :
    (∀ row ∈ make_amortization_schedule loan_amount annual_rate years,
        row.ending_balance = max 0 (row.beginning_balance - row.principal) ∧
        row.interest = row.beginning_balance * (annual_rate / 100 / 12)) ∧
    List.Chain' (fun x y => x.cumulative_interest ≤ y.cumulative_interest)
      (make_amortization_schedule loan_amount annual_rate years) := by
  have hmr : (0 : ℚ) ≤ annual_rate / 100 / 12 := by positivity
  set mr : ℚ := annual_rate / 100 / 12 with hmrdef
  have hn : 1 ≤ years * 12 := by omega
  have hnq : ((years * 12 : ℕ) : ℚ) ≠ 0 := Nat.cast_ne_zero.mpr (by omega)
  set mp : ℚ := pmt mr (years * 12) loan_amount with hmpdef
  -- the initial solvency invariants, one per rate case
  have hz0 : mr = 0 → mp * (years * 12 : ℕ) ≤ loan_amount := by
    intro h0
    rw [hmpdef, pmt, if_pos h0]
    rw [div_mul_cancel₀ _ hnq]
  have hp0 : 0 < mr →
      mp * (1 - ((1 + mr) ^ (years * 12))⁻¹) ≤ loan_amount * mr := by
    intro h0
    have hd : 1 - ((1 + mr) ^ (years * 12))⁻¹ ≠ 0 := discount_factor_ne_zero h0 hn
    rw [hmpdef, pmt, if_neg (ne_of_gt h0)]
    rw [div_mul_cancel₀ _ hd]
    ring_nf
    exact le_refl _
  have hmp : 0 ≤ mp := by
    rcases eq_or_lt_of_le hmr with h0 | h0
    · rw [hmpdef, pmt, if_pos h0.symm]
      positivity
    · have hlt : ((1 + mr : ℚ) ^ (years * 12))⁻¹ < 1 := by
        rw [inv_lt_one_iff₀]
        right
        exact one_lt_one_add_pow h0 hn
      rw [hmpdef, pmt, if_neg (ne_of_gt h0)]
      exact div_nonneg (mul_nonneg hmr hl.le) (by linarith)
  refine ⟨fun row hrow => ⟨?_, ?_⟩, ?_⟩
  · exact amortRows_ending_balance mr mp (years * 12) 1 loan_amount 0 row hrow
  · exact amortRows_interest mr mp hmr hmp (years * 12) 1 loan_amount 0 hz0 hp0 row hrow
  · exact amortRows_chain mr mp hmr (years * 12) 1 loan_amount 0

/-- C3 witness: the invariants at a 12-month zero-rate loan of 1200. -/
theorem make_amortization_schedule_invariants_witness :
    (∀ row ∈ make_amortization_schedule 1200 0 1,
        row.ending_balance = max 0 (row.beginning_balance - row.principal) ∧
        row.interest = row.beginning_balance * (0 / 100 / 12)) ∧
    List.Chain' (fun x y => x.cumulative_interest ≤ y.cumulative_interest)
      (make_amortization_schedule 1200 0 1) :=
  make_amortization_schedule_invariants 1200 0 1 (by norm_num) (by norm_num)
    (by norm_num)

/-! ## Theorems: C7, priced-mode validation -/

/-- C7: in priced mode, a down payment at or above the home price makes the
computation fail with `InvalidInput` before any result is produced, and any
result priced mode does return has a non-negative (indeed positive) loan
amount. -/
theorem priced_mode_invalid_input :
    (∀ I : LoanInputs, I.home_price ≤ I.down_payment_amount →
        pricedCompute I = Except.error CalcError.InvalidInput) ∧
    (∀ (I : LoanInputs) (r : AffordabilityResult),
        pricedCompute I = Except.ok r → 0 ≤ r.loan_amount) := by
  constructor
  · intro I h
    simp only [pricedCompute]
    rw [if_pos h]
  · intro I r h
    simp only [pricedCompute] at h
    split_ifs at h with hc
    -- only the else branch survives: priced mode returned a result
    simp only [Except.ok.injEq] at h
    rw [← h]
    push_neg at hc
    show (0 : ℚ) ≤ I.home_price - I.down_payment_amount
    linarith

/-! ## Theorems: C10, the priced-mode PMI gate -/

/-- C10: in priced mode the monthly PMI charge is positive exactly when the
separately supplied down-payment-percent input is below 20 and the PMI rate
is positive; the gate ignores the actual ratio
`down_payment_amount / home_price`, so PMI can be charged when that ratio is
at least 20% and omitted when it is below 20%. -/
theorem priced_pmi_gate :
    (∀ (I : LoanInputs) (r : AffordabilityResult),
        I.down_payment_amount < I.home_price → 0 ≤ I.pmi_rate →
        pricedCompute I = Except.ok r →
        (0 < r.monthly_pmi ↔ I.down_payment_percent < 20 ∧ 0 < I.pmi_rate)) ∧
    (∃ I : LoanInputs, I.down_payment_percent < 20 ∧
        0.2 ≤ I.down_payment_amount / I.home_price ∧ 0 < pricedMonthlyPmi I) ∧
    (∃ I : LoanInputs, 20 ≤ I.down_payment_percent ∧
        I.down_payment_amount / I.home_price < 0.2 ∧ pricedMonthlyPmi I = 0) := by
  refine ⟨?_, ?_, ?_⟩
  · intro I r hlt hpr h
    have hloan : (0 : ℚ) < I.home_price - I.down_payment_amount := by linarith
    simp only [pricedCompute] at h
    rw [if_neg (not_le.mpr hlt)] at h
    simp only [Except.ok.injEq] at h
    subst h
    show 0 < pricedMonthlyPmi I ↔ _
    unfold pricedMonthlyPmi
    split_ifs with hp20
    · constructor
      · intro hpos
        refine ⟨hp20, ?_⟩
        rcases eq_or_lt_of_le hpr with h0 | h0
        · rw [← h0] at hpos
          norm_num at hpos
        · exact h0
      · rintro ⟨-, h0⟩
        have h1 : 0 < (I.home_price - I.down_payment_amount) * I.pmi_rate :=
          mul_pos hloan h0
        exact div_pos (div_pos h1 (by norm_num)) (by norm_num)
    · constructor
      · intro hpos
        exact absurd hpos (lt_irrefl 0)
      · rintro ⟨h1, -⟩
        exact absurd h1 hp20
  · refine ⟨⟨80000, 0, 100000, 30000, 10, 6.5, 30, 1.2, 1200, 0, 0.5,
      0.28, 0.36, "760+"⟩, by norm_num, by norm_num, ?_⟩
    norm_num [pricedMonthlyPmi]
  · refine ⟨⟨80000, 0, 100000, 10000, 25, 6.5, 30, 1.2, 1200, 0, 0.5,
      0.28, 0.36, "760+"⟩, by norm_num, by norm_num, ?_⟩
    norm_num [pricedMonthlyPmi]

/-! ## Theorems: C8, `safe_divide` and the unguarded ratio computations -/

/-- C8 counterexample: with zero income the priced-mode DTI computation
faults (Python raises `ZeroDivisionError` on the direct division at
src/app.py line 339) instead of returning `safe_divide`'s 0: the ratio
computations do not use `safe_divide` or any equivalent guard. -/
theorem ratios_fault_at_zero_income :
    pricedRatios ⟨0, 500, 400000, 80000, 20, 6.5, 30, 1.2, 1200, 0, 0.5,
        0.28, 0.36, "760+"⟩ 2500 320000 = none ∧
    safe_divide 2500 0 = 0 := by
  constructor
  · simp [pricedRatios, divOrFault]
  · simp [safe_divide]

/-- C8 amended: `safe_divide` returns `n / d` for nonzero `d` and `0` for
`d = 0`; however the DTI and LTV ratio computations divide directly, without
`safe_divide` or any guard in the numeric core — with zero income they fault
— and they are fault-free exactly when income and price are nonzero (which
the input widgets enforce with minimums of 1000). -/
theorem safe_divide_spec_and_unguarded_ratios :
    (∀ n d : ℚ, d ≠ 0 → safe_divide n d = n / d) ∧
    (∀ n : ℚ, safe_divide n 0 = 0) ∧
    (∀ (I : LoanInputs) (t l : ℚ), I.annual_income ≠ 0 → I.home_price ≠ 0 →
        pricedRatios I t l = some (t / (I.annual_income / 12),
          (t + I.existing_debt) / (I.annual_income / 12), l / I.home_price)) ∧
    (∀ (I : LoanInputs) (t l : ℚ), I.annual_income = 0 →
        pricedRatios I t l = none) := by
  refine ⟨?_, ?_, ?_, ?_⟩
  · intro n d h
    simp [safe_divide, h]
  · intro n
    simp [safe_divide]
  · intro I t l hI hP
    have hm : I.annual_income / 12 ≠ 0 := div_ne_zero hI (by norm_num)
    simp [pricedRatios, divOrFault, hm, hP]
  · intro I t l h
    simp [pricedRatios, divOrFault, h]

/-! ## Theorems: C9, the scenario history -/

/-- C9 counterexample: recomputation (the update at src/app.py lines
417-422) mutates the stored snapshot in place even though no save action
ran: the history after a recomputation differs from the history before. -/
theorem scenario_mutated_by_recompute :
    updateLastScenario [sampleScenario] 2500 0.36 0.8 ≠ [sampleScenario] := by
  intro hcontra
  simp [updateLastScenario, sampleScenario] at hcontra

/-- C9 amended: the scenario history is a FIFO buffer of capacity 2 — a save
keeps at most 2 entries and, when full, evicts the oldest first — but the
stored snapshots are NOT mutated only by the explicit save action: every
recomputation rewrites the newest snapshot's payment, DTI and LTV in place
(while touching no earlier entry and not changing the length). -/
theorem scenario_history_fifo_and_update :
    (∀ (h : List Scenario) (s : Scenario), h.length ≤ 2 →
        (saveScenario h s).length ≤ 2) ∧
    (∀ a b s : Scenario, saveScenario [a, b] s = [b, s]) ∧
    (∀ (h : List Scenario) (mp dti l : ℚ),
        (updateLastScenario h mp dti l).length = h.length ∧
        (updateLastScenario h mp dti l).dropLast = h.dropLast) := by
  refine ⟨?_, ?_, ?_⟩
  · intro h s hlen
    simp only [saveScenario]
    split_ifs with hc
    · simp only [List.length_drop, List.length_append, List.length_singleton] at *
      omega
    · simp only [List.length_append, List.length_singleton] at *
      omega
  · intro a b s
    rfl
  · intro h mp dti l
    rcases eq_or_ne h [] with rfl | hne
    · simp [updateLastScenario]
    · have hpos : 0 < h.length := List.length_pos.mpr hne
      constructor
      · simp only [updateLastScenario, dif_neg hne, List.length_append,
          List.length_singleton, List.length_dropLast]
        omega
      · simp only [updateLastScenario, dif_neg hne]
        exact List.dropLast_concat

/-! ## Theorems: C1, the max-affordability solver -/

/-- The loop executes at most as many iterations as it has fuel. -/
theorem solveLoop_count_le (I : LoanInputs) :
    ∀ (fuel : ℕ) (p : ℚ) (c : ℕ), (solveLoop I fuel p c).2.2 ≤ c + fuel := by
  intro fuel
  induction fuel with
  | zero =>
    intro p c
    simp [solveLoop]
  | succ f ih =>
    intro p c
    simp only [solveLoop]
    split_ifs with h1 h2
    · exact le_trans (ih _ _) (by omega)
    · show c + 1 ≤ c + (f + 1)
      omega
    · exact le_trans (ih _ _) (by omega)

/-- When the loop's break flag is set, the returned price's total payment is
within the $10 tolerance of the target. -/
theorem solveLoop_break_tolerance (I : LoanInputs) :
    ∀ (fuel : ℕ) (p : ℚ) (c : ℕ), (solveLoop I fuel p c).2.1 = true →
      |totalPaymentAt I (solveLoop I fuel p c).1 - targetPayment I| < 10 := by
  intro fuel
  induction fuel with
  | zero =>
    intro p c h
    simp [solveLoop] at h
  | succ f ih =>
    intro p c h
    simp only [solveLoop] at h ⊢
    split_ifs at h ⊢ with h1 h2
    · exact ih _ _ h
    · simpa using h2
    · exact ih _ _ h

/-- C1 amended: the max-affordability solver executes at most 10 loop
iterations, and WHEN the loop exits through its $10 tolerance break at a
price of at least `down_payment + 1000` (so the final floor at src/app.py
line 389 leaves the price unchanged), the total monthly payment at the
returned price is at most the DTI target plus the $10 tolerance.  Without
the break the payment bound can fail (see the counterexample). -/
theorem maxAfford_iterations_and_tolerance (I : LoanInputs)
    (hbreak : (solveLoop I 10 400000 0).2.1 = true)
    (hfloor : I.down_payment_amount + 1000 ≤ (solveLoop I 10 400000 0).1) :
    (solveLoop I 10 400000 0).2.2 ≤ 10 ∧
    totalPaymentAt I (maxAffordHomePrice I) ≤ targetPayment I + 10 := by
  refine ⟨by simpa using solveLoop_count_le I 10 400000 0, ?_⟩
  have h := solveLoop_break_tolerance I 10 400000 0 hbreak
  have hmax : maxAffordHomePrice I = (solveLoop I 10 400000 0).1 :=
    max_eq_left hfloor
  rw [hmax]
  have habs := abs_lt.mp h
  linarith [habs.2]

set_option maxHeartbeats 20000000 in
set_option maxRecDepth 20000 in
/-- C1 witness: on `convergingInputs` the loop breaks within tolerance on its
first iteration at the seed price 400000 ≥ down payment + 1000, so the
iteration bound and the payment bound both hold there. -/
theorem maxAfford_iterations_and_tolerance_witness :
    (solveLoop convergingInputs 10 400000 0).2.2 ≤ 10 ∧
    totalPaymentAt convergingInputs (maxAffordHomePrice convergingInputs) ≤
      targetPayment convergingInputs + 10 :=
  maxAfford_iterations_and_tolerance convergingInputs
    (by norm_num [solveLoop, totalPaymentAt, targetPayment, pmt,
      convergingInputs, abs_lt])
    (by norm_num [solveLoop, totalPaymentAt, targetPayment, pmt,
      convergingInputs, abs_lt])

set_option maxHeartbeats 40000000 in
set_option maxRecDepth 20000 in
/-- C1 counterexample: `divergingInputs` has a down payment below the 400000
seed and a positive interest rate, yet the solver exhausts its 10 iterations
without converging and returns the price 600000, whose total monthly payment
(about $3600.50) exceeds the DTI target ($490) plus the $10 tolerance: the
claimed payment bound is false. -/
theorem maxAfford_payment_bound_fails :
    divergingInputs.down_payment_amount < 400000 ∧
    0 < divergingInputs.interest_rate ∧
    targetPayment divergingInputs + 10 <
      totalPaymentAt divergingInputs (maxAffordHomePrice divergingInputs) := by
  refine ⟨by norm_num [divergingInputs], by norm_num [divergingInputs], ?_⟩
  norm_num [maxAffordHomePrice, solveLoop, totalPaymentAt, targetPayment, pmt,
    divergingInputs, abs_lt]

end App
